import Mathlib

/-!
Verification of the Chatbot-Restaurant retrieval pipeline.

This file gives a shallow embedding of the core data-processing code of the
repository and proves (or refutes) the specified properties about it:

* `src/src/preprocess/combined_tables.py` — `CombinedTables.combined`
* `src/src/preprocess/apply_embedding_combined.py` — `EmbeddingForCombined.embedded`
* `src/src/rag/retrieval.py` — `Retrieve.retrieve`
* `src/src/rag/respons_generation.py` — `GenerateResponse.generate`

Tables are modelled as ordered column names plus rows of cell values, FAISS
flat L2 indices as lists of stored vectors (components as integers; the
claims under study are about ordering, lengths and error propagation, not
about floating point rounding), and Python exceptions as an error type
carried in `Except`.  The embedding/generation models are opaque in the
source and are parameters here.
-/

/-- A scalar cell value of a table: a string, an integer, or an embedding
vector (the latter only appears in derived `_embedding` columns). -/
inductive Value where
  | s (v : String)
  | i (v : Int)
  | vec (v : List Int)
deriving DecidableEq

/-- Python `str()` of a cell value, as applied by `astype(str)`. -/
def Value.toStr : Value → String
  | .s v => v
  | .i v => toString v
  | .vec _ => "<array>"

/-- The Python exceptions that the embedded code can raise.  `valueError` is
what the spec calls `InvalidInput`; `runtimeError` is the wrapper the code
uses for `RetrievalError` / `GenerationError`. -/
inductive PyErr where
  | valueError (m : String)
  | keyError (m : String)
  | indexError (m : String)
  | runtimeError (m : String)
deriving DecidableEq

instance {ε α : Type} [DecidableEq ε] [DecidableEq α] : DecidableEq (Except ε α) :=
  fun a b =>
    match a, b with
    | .ok x, .ok y => decidable_of_iff (x = y) (by simp)
    | .error x, .error y => decidable_of_iff (x = y) (by simp)
    | .ok _, .error _ => isFalse (by simp)
    | .error _, .ok _ => isFalse (by simp)

/-- The message text carried by an exception (what Python renders for
`f"... {e}"` when re-raising a wrapped error). -/
def PyErr.msg : PyErr → String
  | .valueError m => m
  | .keyError m => m
  | .indexError m => m
  | .runtimeError m => m

/-- A pandas DataFrame: ordered column names, and rows of cell values; the
cell of row `r` for column `c` sits at position `cols.indexOf c` in `r`. -/
structure DataFrame where
  cols : List String
  rows : List (List Value)
deriving DecidableEq

/-- One row converted by `to_dict(orient="records")`: an association list
from column name to cell value. -/
abbrev Row := List (String × Value)

/-- The record dictionary of one row of values. -/
def DataFrame.record (df : DataFrame) (r : List Value) : Row := df.cols.zip r

/-- `df[c]` for a single column: that column of every row, in row order. -/
def DataFrame.getCol (df : DataFrame) (c : String) : List Value :=
  df.rows.map (fun r => r.getD (df.cols.indexOf c) (Value.s ""))

/-- `df[c] = vals` column assignment: overwrites the column in place when
`c` already exists, otherwise appends it as the last column of every row. -/
def DataFrame.setCol (df : DataFrame) (c : String) (vals : List Value) : DataFrame :=
  if c ∈ df.cols then
    ⟨df.cols, df.rows.zipWith (fun r v => r.set (df.cols.indexOf c) v) vals⟩
  else
    ⟨df.cols ++ [c], df.rows.zipWith (fun r v => r ++ [v]) vals⟩

/-- `df[columns].astype(str).agg(' '.join, axis=1)`: per-row selection of the
named columns in the order given, string conversion, and join by a single
space.  pandas raises a `KeyError` when any requested column is absent. -/
def selectJoin (df : DataFrame) (columns : List String) : Except PyErr (List String) :=
  if ∀ c ∈ columns, c ∈ df.cols then
    .ok (df.rows.map (fun r =>
      String.intercalate " "
        (columns.map (fun c => (r.getD (df.cols.indexOf c) (Value.s "")).toStr))))
  else .error (.keyError "not in index")

/-- `CombinedTables.combined` from `src/src/preprocess/combined_tables.py`.
The missing-column loop in the source only writes to the error log and does
not raise (although its docstring documents a `ValueError`), so it has no
effect in the pure embedding; it is the following `df[columns]` selection
that fails, with a pandas `KeyError`, when a named column is absent. -/
def CombinedTables.combined (columns : List String) (df : DataFrame) :
    Except PyErr DataFrame :=
  match selectJoin df columns with
  | .error e => .error e
  | .ok joined => .ok (df.setCol "combined" (joined.map Value.s))

/-- `np.vstack`: stacking an empty list of vectors raises, as does stacking
vectors of unequal widths. -/
def vstack (ls : List (List Int)) : Except PyErr (List (List Int)) :=
  if ls = [] then .error (.valueError "need at least one array to concatenate")
  else if ∀ v ∈ ls, v.length = (ls.headD []).length then .ok ls
  else .error (.valueError "array dimensions mismatch")

/-- `EmbeddingForCombined.embedded` from
`src/src/preprocess/apply_embedding_combined.py`.  The source first writes a
new `<column>_embedding` column into `df` (an in-place mutation of the
caller's frame) and then stacks the embeddings; the pair returned here is
the final state of `df` together with the returned matrix or the raised
exception.  `encode` abstracts `embedding_model.encode`. -/
def EmbeddingForCombined.embedded (encode : Value → List Int) (df : DataFrame)
    (column : String) : DataFrame × Except PyErr (List (List Int)) :=
  if column ∈ df.cols then
    let embs := (df.getCol column).map encode
    let df2 := df.setCol (column ++ "_embedding") (embs.map Value.vec)
    match vstack embs with
    | .ok m => (df2, .ok m)
    | .error e =>
        (df2, .error (.runtimeError
          ("An error occurred while generating embeddings: " ++ e.msg)))
  else
    (df, .error (.valueError
      ("The column " ++ column ++ " does not exist in the DataFrame.")))

/-- A FAISS `IndexFlatL2`: the stored vectors, in insertion order. -/
abbrev Index := List (List Int)

/-- Squared L2 distance, the exact metric of a flat index. -/
def l2sq (q v : List Int) : Nat :=
  ((q.zipWith (fun a b => a - b) v).map (fun d => (d * d).toNat)).sum

/-- Ordering of (distance, label) pairs by distance; `⊤` models the
`FLT_MAX` distance FAISS reports for padded slots. -/
def distLE (a b : (WithTop Nat) × Int) : Prop := a.1 ≤ b.1

instance : DecidableRel distLE := fun a b => inferInstanceAs (Decidable (a.1 ≤ b.1))

instance : IsTotal ((WithTop Nat) × Int) distLE := ⟨fun a b => le_total a.1 b.1⟩

instance : IsTrans ((WithTop Nat) × Int) distLE := ⟨fun _ _ _ h h2 => le_trans h h2⟩

/-- `index.search(q, k)` on a flat L2 index: every stored vector paired with
its insertion position, sorted stably by ascending distance and truncated
to `k` entries; when fewer than `k` vectors are stored, FAISS pads the
result to length `k` with distance `FLT_MAX` (here `⊤`) and label `-1`. -/
def Index.search (idx : Index) (q : List Int) (k : Nat) :
    List ((WithTop Nat) × Int) :=
  (List.insertionSort distLE
      (((List.range idx.length).zip idx).map
        (fun p => (((l2sq q p.2 : Nat) : WithTop Nat), (p.1 : Int))))).take k
    ++ List.replicate (k - idx.length) ((⊤ : WithTop Nat), -1)

/-- `df.iloc[labels].to_dict(orient="records")`: positional row selection.
A negative label `l` addresses row `l + len(df)` (so `-1` is the last row);
a label outside `[-len(df), len(df))` raises an `IndexError`. -/
def DataFrame.ilocRecords (df : DataFrame) (labels : List Int) :
    Except PyErr (List Row) :=
  if ∀ l ∈ labels, -(df.rows.length : Int) ≤ l ∧ l < (df.rows.length : Int) then
    .ok (labels.map (fun l =>
      df.record (df.rows.getD
        (if l < 0 then l + (df.rows.length : Int) else l).toNat [])))
  else .error (.indexError "positional indexers are out-of-bounds")

/-- The dictionary returned by `Retrieve.retrieve`: the query string plus
the two record lists (keys `_1_result` and `_2_result` in the source). -/
structure RetrieveResult where
  query : String
  res1 : List Row
  res2 : List Row
deriving DecidableEq

/-- The body of the `try` block of `Retrieve.retrieve`: encode the query,
search each index, and project the returned positions onto the matching
DataFrame via `iloc`.  `encode` abstracts `embedding_model.encode` and is
fallible, as is every step inside the `try`. -/
def retrieveBody (encode : String → Except PyErr (List Int))
    (index1 index2 : Index) (df1 df2 : DataFrame)
    (query : String) (k : Nat) : Except PyErr RetrieveResult :=
  match encode query with
  | .error e => .error e
  | .ok q =>
    match df1.ilocRecords ((Index.search index1 q k).map Prod.snd) with
    | .error e => .error e
    | .ok r1 =>
      match df2.ilocRecords ((Index.search index2 q k).map Prod.snd) with
      | .error e => .error e
      | .ok r2 => .ok ⟨query, r1, r2⟩

/-- `Retrieve.retrieve` from `src/src/rag/retrieval.py`: validates `top_k`
before any model call, then runs the encode-search-project sequence inside
a `try` whose handler re-raises every exception as a `RuntimeError` that
wraps the cause in its message.  (The `isinstance` checks on the query,
model, index and frame arguments are static types in this embedding.) -/
def Retrieve.retrieve (encode : String → Except PyErr (List Int))
    (index1 index2 : Index) (df1 df2 : DataFrame)
    (query : String) (top_k : Int) : Except PyErr RetrieveResult :=
  if top_k ≤ 0 then .error (.valueError "top_k must be a positive integer")
  else
    match retrieveBody encode index1 index2 df1 df2 query top_k.toNat with
    | .ok r => .ok r
    | .error e =>
        .error (.runtimeError
          ("An error occurred during the retrieval process: " ++ e.msg))

/-- Left-to-right effectful map over `Except`, stopping at the first raised
exception — the semantics of the Python `for` loops that build the prompt. -/
def mapExcept (f : α → Except PyErr β) : List α → Except PyErr (List β)
  | [] => .ok []
  | a :: t =>
    match f a with
    | .error e => .error e
    | .ok b =>
      match mapExcept f t with
      | .error e => .error e
      | .ok bs => .ok (b :: bs)

/-- The fixed system preamble of the prompt. -/
def headerCtx : String :=
  "You are a helpful assistant for a restaurant in Saudi Arabia. Answer the question based on the provided context:\n\n"

/-- One FAQ line of the prompt.  The f-string looks up `question` and then
`answer`; a missing key raises a raw `KeyError` (first missing key wins). -/
def fmtFaq (r : Row) : Except PyErr String :=
  match r.lookup "question" with
  | none => .error (.keyError "question")
  | some q =>
    match r.lookup "answer" with
    | none => .error (.keyError "answer")
    | some a => .ok ("- Q: " ++ q.toStr ++ " A: " ++ a.toStr ++ "\n")

/-- One menu line of the prompt; keys are looked up in the order `name`,
`description`, `ingredients`, `allergens`, the first missing one raising. -/
def fmtMenu (r : Row) : Except PyErr String :=
  match r.lookup "name" with
  | none => .error (.keyError "name")
  | some n =>
    match r.lookup "description" with
    | none => .error (.keyError "description")
    | some d =>
      match r.lookup "ingredients" with
      | none => .error (.keyError "ingredients")
      | some ing =>
        match r.lookup "allergens" with
        | none => .error (.keyError "allergens")
        | some al =>
          .ok ("- " ++ n.toStr ++ ": " ++ d.toStr ++ " (Ingredients: "
            ++ ing.toStr ++ ", Allergens: " ++ al.toStr ++ ")\n")

/-- The FAQ block of the prompt: empty when there are no FAQ results
(Python truthiness of the list), otherwise a header plus one line each. -/
def faqSection (faq : List Row) : Except PyErr String :=
  if faq.isEmpty then .ok ""
  else
    match mapExcept fmtFaq faq with
    | .error e => .error e
    | .ok ls => .ok ("FAQs:\n" ++ String.join ls)

/-- The menu block of the prompt, analogous to `faqSection`. -/
def menuSection (menu : List Row) : Except PyErr String :=
  if menu.isEmpty then .ok ""
  else
    match mapExcept fmtMenu menu with
    | .error e => .error e
    | .ok ls => .ok ("\nMenu Items:\n" ++ String.join ls)

/-- Prompt assembly of `GenerateResponse.generate` — the code before the
`try` block: preamble, optional FAQ block, optional menu block, then the
literal user query. -/
def buildContext (query : String) (faq menu : List Row) : Except PyErr String :=
  match faqSection faq with
  | .error e => .error e
  | .ok fs =>
    match menuSection menu with
    | .error e => .error e
    | .ok ms =>
      .ok (headerCtx ++ fs ++ ms ++ "\nUser Query: " ++ query ++ "\n\n")

/-- `GenerateResponse.generate` from `src/src/rag/respons_generation.py`.
`genModel` abstracts the tokenizer-model-decode sequence inside the `try`;
prompt assembly happens before the `try`, so its exceptions propagate
unwrapped, while generation failures are re-raised as a `RuntimeError`
wrapping the cause. -/
def GenerateResponse.generate (genModel : String → Except PyErr String)
    (query : String) (retriever : RetrieveResult) : Except PyErr String :=
  match buildContext query retriever.res1 retriever.res2 with
  | .error e => .error e
  | .ok ctx =>
    match genModel ctx with
    | .ok resp => .ok resp
    | .error e =>
        .error (.runtimeError
          ("An error occurred during response generation: " ++ e.msg))


/-! ### Concrete inputs used by witnesses and counterexamples -/

/-- A concrete embedding function: every string encodes to `[0]`. -/
def enc0 : String → Except PyErr (List Int) := fun _ => .ok [0]

/-- A concrete embedding function that always raises. -/
def encFail : String → Except PyErr (List Int) :=
  fun _ => .error (.valueError "embedding failure")

/-- A concrete cell-level encoder: every cell embeds to `[0]`. -/
def encV : Value → List Int := fun _ => [0]

/-- A one-row, one-column table. -/
def dfOne : DataFrame := ⟨["a"], [[Value.s "x"]]⟩

/-- A one-vector flat index matching `dfOne`. -/
def idxOne : Index := [[0]]

/-- What `Retrieve.retrieve` returns on `dfOne`/`idxOne` with `top_k = 2`:
each result list holds the single row twice (the padded `-1` position maps
back onto the last row). -/
def outC1 : RetrieveResult :=
  ⟨"q", [[("a", Value.s "x")], [("a", Value.s "x")]],
        [[("a", Value.s "x")], [("a", Value.s "x")]]⟩

/-- A table with columns `name`, `age` and one row. -/
def dfC2 : DataFrame := ⟨["name", "age"], [[Value.s "Alice", Value.i 25]]⟩

/-- A table that already owns a column literally called `combined`. -/
def dfC4 : DataFrame := ⟨["a", "combined"], [[Value.s "x", Value.s "old"]]⟩

/-- A concrete generation function: echoes its prompt. -/
def genEcho : String → Except PyErr String := fun s => .ok s

/-- A retrieval result whose only FAQ record lacks the `question` key. -/
def retrNoQuestion : RetrieveResult := ⟨"q", [[("answer", Value.s "a")]], []⟩

/-- A retrieval result whose only menu record lacks the `name` key. -/
def retrNoName : RetrieveResult := ⟨"q", [], [[("description", Value.s "d")]]⟩

/-- A retrieval result with no FAQ and no menu matches. -/
def retrEmpty : RetrieveResult := ⟨"q", [], []⟩

/-! ### Helper lemmas -/

theorem zipWith_map_self {α β γ : Type} (g : α → β → γ) (f : α → β) :
    ∀ l : List α, List.zipWith g l (l.map f) = l.map (fun a => g a (f a))
  | [] => rfl
  | a :: t => by
    simp only [List.map_cons, List.zipWith_cons_cons, zipWith_map_self g f t]

theorem Index.length_search (idx : Index) (q : List Int) (k : Nat) :
    (Index.search idx q k).length = k := by
  unfold Index.search
  rw [List.length_append, List.length_take, List.length_insertionSort,
    List.length_map, List.length_zip, List.length_range, List.length_replicate]
  omega

theorem Index.search_labels (idx : Index) (q : List Int) (k : Nat) :
    ∀ p ∈ Index.search idx q k, p.2 = -1 ∨ (0 ≤ p.2 ∧ p.2 < (idx.length : Int)) := by
  intro p hp
  unfold Index.search at hp
  rcases List.mem_append.1 hp with h | h
  · have h1 : p ∈ List.insertionSort distLE
        (((List.range idx.length).zip idx).map
          (fun p => (((l2sq q p.2 : Nat) : WithTop Nat), (p.1 : Int)))) :=
      (List.take_sublist _ _).mem h
    have h2 := (List.mem_insertionSort distLE).1 h1
    rcases List.mem_map.1 h2 with ⟨pr, hpr, rfl⟩
    have h3 := (List.of_mem_zip hpr).1
    have h4 := List.mem_range.1 h3
    right
    refine ⟨Int.ofNat_nonneg pr.1, ?_⟩
    show (pr.1 : Int) < (idx.length : Int)
    exact_mod_cast h4
  · left
    have := List.eq_of_mem_replicate h
    rw [this]

theorem Index.search_sorted (idx : Index) (q : List Int) (k : Nat) :
    ((Index.search idx q k).map Prod.fst).Sorted (· ≤ ·) := by
  unfold Index.search
  rw [List.map_append, List.map_replicate]
  refine List.pairwise_append.2 ⟨?_, ?_, ?_⟩
  · rw [List.map_take]
    refine List.Pairwise.sublist (List.take_sublist _ _) ?_
    rw [List.pairwise_map]
    exact List.sorted_insertionSort distLE _
  · exact List.pairwise_replicate.2 (Or.inr le_rfl)
  · intro a _ b hb
    rw [List.eq_of_mem_replicate hb]
    exact le_top

theorem DataFrame.ilocRecords_ok (df : DataFrame) (labels : List Int)
    (h : ∀ l ∈ labels, -(df.rows.length : Int) ≤ l ∧ l < (df.rows.length : Int)) :
    df.ilocRecords labels = .ok (labels.map (fun l =>
      df.record (df.rows.getD
        (if l < 0 then l + (df.rows.length : Int) else l).toNat []))) := by
  unfold DataFrame.ilocRecords
  rw [if_pos h]

theorem labels_valid (idx : Index) (df : DataFrame) (qv : List Int) (k : Nat)
    (hlen : idx.length = df.rows.length) (hne : df.rows ≠ []) :
    ∀ l ∈ (Index.search idx qv k).map Prod.snd,
      -(df.rows.length : Int) ≤ l ∧ l < (df.rows.length : Int) := by
  intro l hl
  rcases List.mem_map.1 hl with ⟨p, hp, rfl⟩
  have hn : 0 < df.rows.length := List.length_pos.2 hne
  rcases Index.search_labels idx qv k p hp with h | h
  · rw [h]; omega
  · rw [hlen] at h; omega

theorem iloc_search_ok (idx : Index) (df : DataFrame) (qv : List Int) (k : Nat)
    (hlen : idx.length = df.rows.length) (hne : df.rows ≠ []) :
    ∃ rs, df.ilocRecords ((Index.search idx qv k).map Prod.snd) = .ok rs
      ∧ rs.length = k := by
  refine ⟨_, DataFrame.ilocRecords_ok df _ (labels_valid idx df qv k hlen hne), ?_⟩
  rw [List.length_map, List.length_map, Index.length_search]

theorem iloc_search_empty_err (idx : Index) (df : DataFrame) (qv : List Int)
    (k : Nat) (hlen : idx.length = df.rows.length) (he : df.rows = [])
    (hk : 0 < k) :
    df.ilocRecords ((Index.search idx qv k).map Prod.snd)
      = .error (.indexError "positional indexers are out-of-bounds") := by
  have hidx : idx = [] := by
    have : idx.length = 0 := by rw [hlen, he]; rfl
    exact List.length_eq_zero.1 this
  subst hidx
  have hsearch : Index.search ([] : Index) qv k
      = List.replicate k ((⊤ : WithTop Nat), -1) := by
    unfold Index.search
    simp
  have hmem : (-1 : Int) ∈ ((Index.search ([] : Index) qv k).map Prod.snd) := by
    rw [hsearch, List.map_replicate]
    exact List.mem_replicate.2 ⟨by omega, rfl⟩
  unfold DataFrame.ilocRecords
  rw [if_neg]
  intro hall
  have h2 := hall (-1) hmem
  rw [he] at h2
  simp at h2

theorem retrieve_ok_elim (encode : String → Except PyErr (List Int))
    (index1 index2 : Index) (df1 df2 : DataFrame) (query : String) (K : Int)
    (r : RetrieveResult)
    (hok : Retrieve.retrieve encode index1 index2 df1 df2 query K = .ok r) :
    ∃ qv, encode query = .ok qv
      ∧ df1.ilocRecords ((Index.search index1 qv K.toNat).map Prod.snd) = .ok r.res1
      ∧ df2.ilocRecords ((Index.search index2 qv K.toNat).map Prod.snd) = .ok r.res2
      ∧ r.query = query := by
  unfold Retrieve.retrieve at hok
  by_cases hK : K ≤ 0
  · rw [if_pos hK] at hok
    exact absurd hok (by simp)
  · rw [if_neg hK] at hok
    cases hb : retrieveBody encode index1 index2 df1 df2 query K.toNat with
    | error e => rw [hb] at hok; exact absurd hok (by simp)
    | ok r0 =>
      rw [hb] at hok
      have hr0 : r0 = r := by simpa using hok
      subst hr0
      unfold retrieveBody at hb
      cases henc : encode query with
      | error e =>
        simp only [henc] at hb
        exact absurd hb (by simp)
      | ok qv =>
        simp only [henc] at hb
        cases h1 : df1.ilocRecords ((Index.search index1 qv K.toNat).map Prod.snd) with
        | error e =>
          simp only [h1] at hb
          exact absurd hb (by simp)
        | ok r1 =>
          simp only [h1] at hb
          cases h2 : df2.ilocRecords ((Index.search index2 qv K.toNat).map Prod.snd) with
          | error e =>
            simp only [h2] at hb
            exact absurd hb (by simp)
          | ok r2 =>
            simp only [h2] at hb
            have hr : (⟨query, r1, r2⟩ : RetrieveResult) = r0 := by simpa using hb
            rw [← hr]
            exact ⟨qv, rfl, h1, h2, rfl⟩

/-- C1 counterexample: with one indexed row (`M = 1`) and `top_k = 2`, a
successful `Retrieve.retrieve` returns TWO records per source (FAISS pads
the search result with position `-1`, which pandas `iloc` maps back onto
the last row), not `min(K, M) = 1` records. -/
theorem c1_counterexample :
    Retrieve.retrieve enc0 idxOne idxOne dfOne dfOne "q" 2 = .ok outC1
    ∧ outC1.res1.length ≠ min 2 dfOne.rows.length := by
  constructor
  · decide
  · decide

/-- C1 (amended): for indexed tables (index size = table size) and `top_k
= K > 0`, a successful retrieval returns exactly `K` records per source
whenever both tables are non-empty — positions past the table size repeat
the last row instead of being dropped — and when a table is empty the call
fails with the wrapped `RuntimeError` instead of returning an empty list. -/
theorem c1_topk_exact (encode : String → Except PyErr (List Int))
    (index1 index2 : Index) (df1 df2 : DataFrame) (query : String) (K : Int)
    (qv : List Int) (hK : 0 < K) (henc : encode query = .ok qv)
    (hlen1 : index1.length = df1.rows.length)
    (hlen2 : index2.length = df2.rows.length) :
    (df1.rows ≠ [] → df2.rows ≠ [] →
      ∃ r, Retrieve.retrieve encode index1 index2 df1 df2 query K = .ok r
        ∧ r.res1.length = K.toNat ∧ r.res2.length = K.toNat)
    ∧ ((df1.rows = [] ∨ df2.rows = []) →
      ∃ m, Retrieve.retrieve encode index1 index2 df1 df2 query K
        = .error (.runtimeError m)) := by
  have hKle : ¬ K ≤ 0 := by omega
  have hk : 0 < K.toNat := by omega
  constructor
  · intro h1 h2
    obtain ⟨r1, hr1, hl1⟩ := iloc_search_ok index1 df1 qv K.toNat hlen1 h1
    obtain ⟨r2, hr2, hl2⟩ := iloc_search_ok index2 df2 qv K.toNat hlen2 h2
    refine ⟨⟨query, r1, r2⟩, ?_, hl1, hl2⟩
    unfold Retrieve.retrieve
    rw [if_neg hKle]
    unfold retrieveBody
    simp only [henc, hr1, hr2]
  · intro hcase
    rcases hcase with he | he
    · have herr := iloc_search_empty_err index1 df1 qv K.toNat hlen1 he hk
      refine ⟨"An error occurred during the retrieval process: "
        ++ (PyErr.indexError "positional indexers are out-of-bounds").msg, ?_⟩
      unfold Retrieve.retrieve
      rw [if_neg hKle]
      unfold retrieveBody
      simp only [henc, herr]
    · by_cases h1 : df1.rows = []
      · have herr := iloc_search_empty_err index1 df1 qv K.toNat hlen1 h1 hk
        refine ⟨"An error occurred during the retrieval process: "
          ++ (PyErr.indexError "positional indexers are out-of-bounds").msg, ?_⟩
        unfold Retrieve.retrieve
        rw [if_neg hKle]
        unfold retrieveBody
        simp only [henc, herr]
      · obtain ⟨r1, hr1, _⟩ := iloc_search_ok index1 df1 qv K.toNat hlen1 h1
        have herr := iloc_search_empty_err index2 df2 qv K.toNat hlen2 he hk
        refine ⟨"An error occurred during the retrieval process: "
          ++ (PyErr.indexError "positional indexers are out-of-bounds").msg, ?_⟩
        unfold Retrieve.retrieve
        rw [if_neg hKle]
        unfold retrieveBody
        simp only [henc, hr1, herr]

/-- Witness for the amended C1: on the concrete one-row sources with
`top_k = 2`, retrieval succeeds with exactly 2 records per list. -/
theorem c1_topk_exact_witness :
    ∃ r, Retrieve.retrieve enc0 idxOne idxOne dfOne dfOne "q" 2 = .ok r
      ∧ r.res1.length = (2 : Int).toNat ∧ r.res2.length = (2 : Int).toNat :=
  (c1_topk_exact enc0 idxOne idxOne dfOne dfOne "q" 2 [0] (by decide) (by decide)
    (by decide) (by decide)).1 (by decide) (by decide)

/-- C6: with a valid `top_k`, a failure of any step of the
encode-search-project body surfaces as the wrapping `RuntimeError` (the
code's `RetrievalError`) carrying the cause's message, and the call then
returns no (partial) result. -/
theorem c6_all_or_nothing (encode : String → Except PyErr (List Int))
    (index1 index2 : Index) (df1 df2 : DataFrame) (query : String) (K : Int)
    (e : PyErr) (hK : 0 < K)
    (herr : retrieveBody encode index1 index2 df1 df2 query K.toNat = .error e) :
    Retrieve.retrieve encode index1 index2 df1 df2 query K
      = .error (.runtimeError
        ("An error occurred during the retrieval process: " ++ e.msg))
    ∧ ∀ r, Retrieve.retrieve encode index1 index2 df1 df2 query K ≠ .ok r := by
  have hKle : ¬ K ≤ 0 := by omega
  have hmain : Retrieve.retrieve encode index1 index2 df1 df2 query K
      = .error (.runtimeError
        ("An error occurred during the retrieval process: " ++ e.msg)) := by
    unfold Retrieve.retrieve
    rw [if_neg hKle]
    simp only [herr]
  refine ⟨hmain, fun r hr => ?_⟩
  rw [hmain] at hr
  exact absurd hr (by simp)

/-- Witness for C6: a failing embedding model makes the whole concrete call
fail with the wrapping `RuntimeError`. -/
theorem c6_all_or_nothing_witness :
    Retrieve.retrieve encFail idxOne idxOne dfOne dfOne "q" 3
      = .error (.runtimeError
        ("An error occurred during the retrieval process: "
          ++ (PyErr.valueError "embedding failure").msg)) :=
  (c6_all_or_nothing encFail idxOne idxOne dfOne dfOne "q" 3
    (.valueError "embedding failure") (by decide) (by decide)).1

/-- C7: a call with `top_k ≤ 0` raises the `InvalidInput` validation error
(`ValueError` in the source), and this happens before the query is encoded:
the outcome is the same for every embedding function, so no model is
invoked. -/
theorem c7_topk_validated_first (encode : String → Except PyErr (List Int))
    (index1 index2 : Index) (df1 df2 : DataFrame) (query : String) (K : Int)
    (hK : K ≤ 0) :
    Retrieve.retrieve encode index1 index2 df1 df2 query K
      = .error (.valueError "top_k must be a positive integer")
    ∧ ∀ encode2 : String → Except PyErr (List Int),
        Retrieve.retrieve encode2 index1 index2 df1 df2 query K
          = Retrieve.retrieve encode index1 index2 df1 df2 query K := by
  constructor
  · unfold Retrieve.retrieve
    rw [if_pos hK]
  · intro encode2
    unfold Retrieve.retrieve
    rw [if_pos hK, if_pos hK]

/-- Witness for C7: `top_k = 0` on the concrete sources yields the
validation error, identically for a working and a failing model. -/
theorem c7_topk_validated_first_witness :
    Retrieve.retrieve enc0 idxOne idxOne dfOne dfOne "q" 0
      = .error (.valueError "top_k must be a positive integer") :=
  (c7_topk_validated_first enc0 idxOne idxOne dfOne dfOne "q" 0 (by decide)).1

theorem ilocRecords_mem (df : DataFrame) (labels : List Int) (rs : List Row)
    (h : df.ilocRecords labels = .ok rs) :
    rs = labels.map (fun l =>
      df.record (df.rows.getD
        (if l < 0 then l + (df.rows.length : Int) else l).toNat []))
    ∧ ∀ rec ∈ rs, ∃ row, row ∈ df.rows ∧ rec = df.record row := by
  unfold DataFrame.ilocRecords at h
  by_cases hall : ∀ l ∈ labels, -(df.rows.length : Int) ≤ l ∧ l < (df.rows.length : Int)
  · rw [if_pos hall] at h
    have hrs : rs = labels.map (fun l =>
        df.record (df.rows.getD
          (if l < 0 then l + (df.rows.length : Int) else l).toNat [])) := by
      simpa using h.symm
    refine ⟨hrs, fun rec hrec => ?_⟩
    rw [hrs] at hrec
    rcases List.mem_map.1 hrec with ⟨l, hl, rfl⟩
    obtain ⟨hlo, hhi⟩ := hall l hl
    have hj : (if l < 0 then l + (df.rows.length : Int) else l).toNat
        < df.rows.length := by
      by_cases hneg : l < 0
      · rw [if_pos hneg]; omega
      · rw [if_neg hneg]; omega
    refine ⟨df.rows.getD (if l < 0 then l + (df.rows.length : Int) else l).toNat [],
      ?_, rfl⟩
    rw [List.getD_eq_getElem df.rows [] hj]
    exact List.getElem_mem hj
  · rw [if_neg hall] at h
    exact absurd h (by simp)

/-- C5: a successful retrieval against two non-empty sources is a record of
the verbatim query string plus exactly two lists, each of length at most
`top_k`, each consisting of full original row records of its source, and
each ordered by ascending search distance (the projection of the search
output, whose distance column is sorted). -/
theorem c5_result_shape (encode : String → Except PyErr (List Int))
    (index1 index2 : Index) (df1 df2 : DataFrame) (query : String) (K : Int)
    (r : RetrieveResult)
    (hne1 : df1.rows ≠ []) (hne2 : df2.rows ≠ [])
    (hok : Retrieve.retrieve encode index1 index2 df1 df2 query K = .ok r) :
    r.query = query
    ∧ r.res1.length ≤ K.toNat ∧ r.res2.length ≤ K.toNat
    ∧ (∀ rec ∈ r.res1, ∃ row, row ∈ df1.rows ∧ rec = df1.record row)
    ∧ (∀ rec ∈ r.res2, ∃ row, row ∈ df2.rows ∧ rec = df2.record row)
    ∧ ∃ qv, encode query = .ok qv
        ∧ ((Index.search index1 qv K.toNat).map Prod.fst).Sorted (· ≤ ·)
        ∧ r.res1 = ((Index.search index1 qv K.toNat).map Prod.snd).map (fun l =>
            df1.record (df1.rows.getD
              (if l < 0 then l + (df1.rows.length : Int) else l).toNat []))
        ∧ ((Index.search index2 qv K.toNat).map Prod.fst).Sorted (· ≤ ·)
        ∧ r.res2 = ((Index.search index2 qv K.toNat).map Prod.snd).map (fun l =>
            df2.record (df2.rows.getD
              (if l < 0 then l + (df2.rows.length : Int) else l).toNat [])) := by
  obtain ⟨qv, henc, h1, h2, hq⟩ :=
    retrieve_ok_elim encode index1 index2 df1 df2 query K r hok
  obtain ⟨heq1, hmem1⟩ := ilocRecords_mem df1 _ _ h1
  obtain ⟨heq2, hmem2⟩ := ilocRecords_mem df2 _ _ h2
  refine ⟨hq, ?_, ?_, hmem1, hmem2, qv, henc,
    Index.search_sorted index1 qv K.toNat, heq1,
    Index.search_sorted index2 qv K.toNat, heq2⟩
  · rw [heq1, List.length_map, List.length_map, Index.length_search]
  · rw [heq2, List.length_map, List.length_map, Index.length_search]

/-- Witness for C5 at the concrete one-row sources with `top_k = 2`. -/
theorem c5_result_shape_witness :
    outC1.query = "q" ∧ outC1.res1.length ≤ (2 : Int).toNat :=
  ⟨(c5_result_shape enc0 idxOne idxOne dfOne dfOne "q" 2 outC1
      (by decide) (by decide) (by decide)).1,
   (c5_result_shape enc0 idxOne idxOne dfOne dfOne "q" 2 outC1
      (by decide) (by decide) (by decide)).2.1⟩

/-- C2 (code bug): calling the combiner with a column absent from the table
does NOT surface the `InvalidInput` (`ValueError`) its own docstring
documents; the missing-column check only logs, and the combining step then
dies with a pandas `KeyError`. -/
theorem c2_missing_column_keyerror :
    CombinedTables.combined ["name", "salary"] dfC2
      = .error (.keyError "not in index")
    ∧ ∀ m, CombinedTables.combined ["name", "salary"] dfC2
        ≠ .error (.valueError m) := by
  have h : CombinedTables.combined ["name", "salary"] dfC2
      = .error (.keyError "not in index") := by decide
  refine ⟨h, fun m hm => ?_⟩
  rw [h] at hm
  exact absurd hm (by simp)

/-- C4 counterexample: on a table that already owns a column named
`combined`, the combiner overwrites that pre-existing column instead of
leaving existing columns unchanged and adding a new one. -/
theorem c4_counterexample :
    CombinedTables.combined ["a"] dfC4
      = .ok ⟨["a", "combined"], [[Value.s "x", Value.s "x"]]⟩
    ∧ (⟨["a", "combined"], [[Value.s "x", Value.s "x"]]⟩ : DataFrame).getCol "combined"
        ≠ dfC4.getCol "combined" := by
  constructor
  · decide
  · decide

/-- C4 (amended): when every named column exists and the table does not
already have a `combined` column, the combiner returns the input table with
exactly one appended column `combined` whose value at row `i` is the
whitespace-joined string form of the named columns of row `i`, in the order
given; pre-existing columns and row order are unchanged. -/
theorem c4_combined_appends (columns : List String) (df : DataFrame)
    (hcols : ∀ c ∈ columns, c ∈ df.cols) (hfresh : "combined" ∉ df.cols) :
    CombinedTables.combined columns df = .ok
      ⟨df.cols ++ ["combined"],
       df.rows.map (fun r => r ++ [Value.s (String.intercalate " "
         (columns.map (fun c => (r.getD (df.cols.indexOf c) (Value.s "")).toStr)))])⟩ := by
  have hsel : selectJoin df columns = .ok (df.rows.map (fun r =>
      String.intercalate " "
        (columns.map (fun c => (r.getD (df.cols.indexOf c) (Value.s "")).toStr)))) := by
    unfold selectJoin
    rw [if_pos hcols]
  unfold CombinedTables.combined
  simp only [hsel]
  unfold DataFrame.setCol
  rw [if_neg hfresh]
  rw [List.map_map, zipWith_map_self]
  rfl

/-- Witness for the amended C4 at a concrete two-column table. -/
theorem c4_combined_appends_witness :
    CombinedTables.combined ["name", "age"] dfC2 = .ok
      ⟨dfC2.cols ++ ["combined"],
       dfC2.rows.map (fun r => r ++ [Value.s (String.intercalate " "
         (["name", "age"].map (fun c => (r.getD (dfC2.cols.indexOf c) (Value.s "")).toStr)))])⟩ :=
  c4_combined_appends ["name", "age"] dfC2 (by decide) (by decide)

theorem vstack_ok (ls ms : List (List Int)) (h : vstack ls = .ok ms) : ms = ls := by
  unfold vstack at h
  by_cases h0 : ls = []
  · rw [if_pos h0] at h
    exact absurd h (by simp)
  · rw [if_neg h0] at h
    by_cases h1 : ∀ v ∈ ls, v.length = (ls.headD []).length
    · rw [if_pos h1] at h
      simpa using h.symm
    · rw [if_neg h1] at h
      exact absurd h (by simp)

/-- C3: whenever the embedding stage returns a matrix, that matrix has one
row per table row and its row `i` is exactly the embedding of the text of
table row `i` — row order is preserved. -/
theorem c3_embedding_row_order (encode : Value → List Int) (df : DataFrame)
    (column : String) (m : List (List Int))
    (hok : (EmbeddingForCombined.embedded encode df column).2 = .ok m) :
    m = (df.getCol column).map encode ∧ m.length = df.rows.length := by
  unfold EmbeddingForCombined.embedded at hok
  by_cases hc : column ∈ df.cols
  · rw [if_pos hc] at hok
    cases hv : vstack ((df.getCol column).map encode) with
    | ok m2 =>
      simp only [hv] at hok
      have hm : m2 = m := by simpa using hok
      have hms := vstack_ok _ _ hv
      rw [← hm, hms]
      refine ⟨rfl, ?_⟩
      rw [List.length_map]
      unfold DataFrame.getCol
      rw [List.length_map]
    | error e =>
      simp only [hv] at hok
      exact absurd hok (by simp)
  · rw [if_neg hc] at hok
    simp at hok

/-- Witness for C3 at a concrete one-row table. -/
theorem c3_embedding_row_order_witness :
    ([[0]] : List (List Int)) = (dfOne.getCol "a").map encV
    ∧ ([[0]] : List (List Int)).length = dfOne.rows.length :=
  c3_embedding_row_order encV dfOne "a" [[0]] (by decide)

/-- C9: the embedding stage mutates the caller's table in place, appending
a `<column>_embedding` column, so after the call the table is no longer
equal to what the caller supplied. -/
theorem c9_embedded_mutates (encode : Value → List Int) (df : DataFrame)
    (column : String) (hc : column ∈ df.cols)
    (hfresh : (column ++ "_embedding") ∉ df.cols) :
    (EmbeddingForCombined.embedded encode df column).1.cols
        = df.cols ++ [column ++ "_embedding"]
    ∧ (EmbeddingForCombined.embedded encode df column).1 ≠ df := by
  have hcols : (EmbeddingForCombined.embedded encode df column).1.cols
      = df.cols ++ [column ++ "_embedding"] := by
    unfold EmbeddingForCombined.embedded
    rw [if_pos hc]
    cases hv : vstack ((df.getCol column).map encode) with
    | ok m =>
      simp only [hv]
      unfold DataFrame.setCol
      rw [if_neg hfresh]
    | error e =>
      simp only [hv]
      unfold DataFrame.setCol
      rw [if_neg hfresh]
  refine ⟨hcols, fun heq => ?_⟩
  have hc2 := congrArg DataFrame.cols heq
  rw [hcols] at hc2
  have hlen := congrArg List.length hc2
  rw [List.length_append] at hlen
  simp at hlen

/-- Witness for C9 at a concrete one-row table. -/
theorem c9_embedded_mutates_witness :
    (EmbeddingForCombined.embedded encV dfOne "a").1.cols
        = dfOne.cols ++ ["a" ++ "_embedding"]
    ∧ (EmbeddingForCombined.embedded encV dfOne "a").1 ≠ dfOne :=
  c9_embedded_mutates encV dfOne "a" (by decide) (by decide)

/-- C8: prompt assembly on an empty retrieval result does not fail: the
prompt is exactly the preamble followed by the user-query line — the FAQ
and menu sections are absent — it contains the query verbatim, and
generation proceeds normally with it. -/
theorem c8_empty_retrieval_prompt (genModel : String → Except PyErr String)
    (query : String) (r : RetrieveResult)
    (h1 : r.res1 = []) (h2 : r.res2 = []) :
    buildContext query r.res1 r.res2
      = .ok (headerCtx ++ "\nUser Query: " ++ query ++ "\n\n")
    ∧ (∃ a b, headerCtx ++ "\nUser Query: " ++ query ++ "\n\n" = a ++ query ++ b)
    ∧ ∀ resp, genModel (headerCtx ++ "\nUser Query: " ++ query ++ "\n\n") = .ok resp →
        GenerateResponse.generate genModel query r = .ok resp := by
  have hb : buildContext query r.res1 r.res2
      = .ok (headerCtx ++ "\nUser Query: " ++ query ++ "\n\n") := by
    rw [h1, h2]
    unfold buildContext faqSection menuSection
    simp
  refine ⟨hb, ⟨headerCtx ++ "\nUser Query: ", "\n\n", rfl⟩, fun resp hresp => ?_⟩
  unfold GenerateResponse.generate
  simp only [hb, hresp]

/-- Witness for C8: generation with an echoing model on an empty retrieval
result returns the section-free prompt. -/
theorem c8_empty_retrieval_prompt_witness :
    GenerateResponse.generate genEcho "q" retrEmpty
      = .ok (headerCtx ++ "\nUser Query: " ++ "q" ++ "\n\n") :=
  (c8_empty_retrieval_prompt genEcho "q" retrEmpty rfl rfl).2.2
    (headerCtx ++ "\nUser Query: " ++ "q" ++ "\n\n") rfl

theorem fmtFaq_shape (r : Row) :
    (∃ s, fmtFaq r = .ok s) ∨ (∃ key, fmtFaq r = .error (.keyError key)) := by
  unfold fmtFaq
  cases hq : r.lookup "question" with
  | none => exact Or.inr ⟨"question", rfl⟩
  | some q =>
    cases ha : r.lookup "answer" with
    | none => exact Or.inr ⟨"answer", rfl⟩
    | some a => exact Or.inl ⟨_, rfl⟩

theorem mapExcept_shape {α β : Type} (f : α → Except PyErr β) (l : List α) :
    (∃ bs, mapExcept f l = .ok bs ∧ ∀ x ∈ l, ∃ b, f x = .ok b)
    ∨ (∃ x, x ∈ l ∧ ∃ e, f x = .error e ∧ mapExcept f l = .error e) := by
  induction l with
  | nil => exact Or.inl ⟨[], rfl, by simp⟩
  | cons a t ih =>
    cases hfa : f a with
    | error e =>
      refine Or.inr ⟨a, by simp, e, hfa, ?_⟩
      unfold mapExcept
      simp only [hfa]
    | ok b =>
      rcases ih with ⟨bs, hbs, hall⟩ | ⟨x, hx, e, hfe, herr⟩
      · refine Or.inl ⟨b :: bs, ?_, ?_⟩
        · unfold mapExcept
          simp only [hfa, hbs]
        · intro x hx
          rcases List.mem_cons.1 hx with rfl | hx2
          · exact ⟨b, hfa⟩
          · exact hall x hx2
      · refine Or.inr ⟨x, List.mem_cons_of_mem a hx, e, hfe, ?_⟩
        unfold mapExcept
        simp only [hfa, herr]

theorem fmtMenu_shape (r : Row) :
    (∃ s, fmtMenu r = .ok s) ∨ (∃ key, fmtMenu r = .error (.keyError key)) := by
  unfold fmtMenu
  cases hn : r.lookup "name" with
  | none => exact Or.inr ⟨"name", rfl⟩
  | some n =>
    cases hd : r.lookup "description" with
    | none => exact Or.inr ⟨"description", rfl⟩
    | some d =>
      cases hi : r.lookup "ingredients" with
      | none => exact Or.inr ⟨"ingredients", rfl⟩
      | some ing =>
        cases ha : r.lookup "allergens" with
        | none => exact Or.inr ⟨"allergens", rfl⟩
        | some al => exact Or.inl ⟨_, rfl⟩

theorem fmtFaq_bad (rec : Row)
    (hmiss : rec.lookup "question" = none ∨ rec.lookup "answer" = none) :
    ∀ b, fmtFaq rec ≠ .ok b := by
  intro b hb
  unfold fmtFaq at hb
  rcases hmiss with h | h
  · simp only [h] at hb
    exact absurd hb (by simp)
  · cases hq : rec.lookup "question" with
    | none =>
      simp only [hq] at hb
      exact absurd hb (by simp)
    | some q =>
      simp only [hq, h] at hb
      exact absurd hb (by simp)

theorem fmtMenu_bad (rec : Row)
    (hmiss : rec.lookup "name" = none ∨ rec.lookup "description" = none
      ∨ rec.lookup "ingredients" = none ∨ rec.lookup "allergens" = none) :
    ∀ b, fmtMenu rec ≠ .ok b := by
  intro b hb
  unfold fmtMenu at hb
  cases hn : rec.lookup "name" with
  | none =>
    simp only [hn] at hb
    exact absurd hb (by simp)
  | some n =>
    cases hd : rec.lookup "description" with
    | none =>
      simp only [hn, hd] at hb
      exact absurd hb (by simp)
    | some d =>
      cases hi : rec.lookup "ingredients" with
      | none =>
        simp only [hn, hd, hi] at hb
        exact absurd hb (by simp)
      | some ing =>
        cases ha : rec.lookup "allergens" with
        | none =>
          simp only [hn, hd, hi, ha] at hb
          exact absurd hb (by simp)
        | some al =>
          rcases hmiss with h | h | h | h
          · rw [hn] at h; exact absurd h (by simp)
          · rw [hd] at h; exact absurd h (by simp)
          · rw [hi] at h; exact absurd h (by simp)
          · rw [ha] at h; exact absurd h (by simp)

theorem mapExcept_err_keyError (fmt : Row → Except PyErr String) (l : List Row)
    (hshape : ∀ x, (∃ s, fmt x = .ok s) ∨ (∃ key, fmt x = .error (.keyError key)))
    (rec : Row) (hmem : rec ∈ l) (hbad : ∀ b, fmt rec ≠ .ok b) :
    ∃ key, mapExcept fmt l = .error (.keyError key) := by
  rcases mapExcept_shape fmt l with ⟨bs, _, hall⟩ | ⟨x, hx, e, hfe, herr⟩
  · obtain ⟨b, hb⟩ := hall rec hmem
    exact absurd hb (hbad b)
  · rcases hshape x with ⟨s, hs⟩ | ⟨key, hk⟩
    · rw [hs] at hfe
      exact absurd hfe (by simp)
    · rw [hk] at hfe
      have he : e = .keyError key := by simpa using hfe.symm
      subst he
      exact ⟨key, herr⟩

theorem faqSection_shape (faq : List Row) :
    (∃ s, faqSection faq = .ok s) ∨ (∃ key, faqSection faq = .error (.keyError key)) := by
  unfold faqSection
  by_cases he : faq.isEmpty = true
  · rw [if_pos he]
    exact Or.inl ⟨"", rfl⟩
  · rw [if_neg he]
    rcases mapExcept_shape fmtFaq faq with ⟨bs, hbs, _⟩ | ⟨x, hx, e, hfe, herr⟩
    · simp only [hbs]
      exact Or.inl ⟨_, rfl⟩
    · rcases fmtFaq_shape x with ⟨s, hs⟩ | ⟨key, hk⟩
      · rw [hs] at hfe
        exact absurd hfe (by simp)
      · rw [hk] at hfe
        have hek : e = .keyError key := by simpa using hfe.symm
        subst hek
        simp only [herr]
        exact Or.inr ⟨key, rfl⟩

/-- C10: prompt assembly happens outside the error-wrapping `try`: a
retrieval result whose non-empty FAQ list has a record lacking the
`question` or `answer` key, or whose non-empty menu list has a record
lacking the `name`, `description`, `ingredients` or `allergens` key, makes
`GenerateResponse.generate` surface a raw `KeyError` — never the wrapping
`RuntimeError` (the code's `GenerationError`). -/
theorem c10_key_lookup_unwrapped (genModel : String → Except PyErr String)
    (query : String) (r : RetrieveResult)
    (hbad : (∃ rec, rec ∈ r.res1 ∧
        (rec.lookup "question" = none ∨ rec.lookup "answer" = none))
      ∨ (∃ rec, rec ∈ r.res2 ∧
        (rec.lookup "name" = none ∨ rec.lookup "description" = none
          ∨ rec.lookup "ingredients" = none ∨ rec.lookup "allergens" = none))) :
    ∃ key, GenerateResponse.generate genModel query r = .error (.keyError key)
      ∧ ∀ m, GenerateResponse.generate genModel query r
          ≠ .error (.runtimeError m) := by
  have hbc : ∃ key, buildContext query r.res1 r.res2 = .error (.keyError key) := by
    rcases hbad with ⟨rec, hmem, hmiss⟩ | ⟨rec, hmem, hmiss⟩
    · have hne : ¬ r.res1.isEmpty = true := by
        cases hres : r.res1 with
        | nil => rw [hres] at hmem; simp at hmem
        | cons a t => simp [hres]
      obtain ⟨key, hk⟩ := mapExcept_err_keyError fmtFaq r.res1 fmtFaq_shape
        rec hmem (fmtFaq_bad rec hmiss)
      refine ⟨key, ?_⟩
      unfold buildContext faqSection
      rw [if_neg hne]
      simp only [hk]
    · rcases faqSection_shape r.res1 with ⟨fs, hs⟩ | ⟨key, hk⟩
      · have hne : ¬ r.res2.isEmpty = true := by
          cases hres : r.res2 with
          | nil => rw [hres] at hmem; simp at hmem
          | cons a t => simp [hres]
        obtain ⟨key, hk⟩ := mapExcept_err_keyError fmtMenu r.res2 fmtMenu_shape
          rec hmem (fmtMenu_bad rec hmiss)
        refine ⟨key, ?_⟩
        unfold buildContext menuSection
        simp only [hs]
        rw [if_neg hne]
        simp only [hk]
      · refine ⟨key, ?_⟩
        unfold buildContext
        simp only [hk]
  obtain ⟨key, hbck⟩ := hbc
  refine ⟨key, ?_, ?_⟩
  · unfold GenerateResponse.generate
    simp only [hbck]
  · intro m hm
    unfold GenerateResponse.generate at hm
    simp only [hbck] at hm
    exact absurd hm (by simp)

/-- Witness for C10, exercising both branches: a FAQ record lacking
`question` and, separately, a menu record lacking `name` each make the
concrete generation call raise an unwrapped `KeyError`. -/
theorem c10_key_lookup_unwrapped_witness :
    (∃ key, GenerateResponse.generate genEcho "q" retrNoQuestion
        = .error (.keyError key)
      ∧ ∀ m, GenerateResponse.generate genEcho "q" retrNoQuestion
          ≠ .error (.runtimeError m))
    ∧ (∃ key, GenerateResponse.generate genEcho "q" retrNoName
        = .error (.keyError key)
      ∧ ∀ m, GenerateResponse.generate genEcho "q" retrNoName
          ≠ .error (.runtimeError m)) :=
  ⟨c10_key_lookup_unwrapped genEcho "q" retrNoQuestion
      (Or.inl ⟨[("answer", Value.s "a")], by decide, Or.inl (by decide)⟩),
   c10_key_lookup_unwrapped genEcho "q" retrNoName
      (Or.inr ⟨[("description", Value.s "d")], by decide, Or.inl (by decide)⟩)⟩
